import Mathlib

/-!
Verification of the watermark bot (`src/bot.py`).

The development shallowly embeds the parts of the source that the
properties below are about:

* the per-user settings store (`get_user_settings`, `DEFAULT_SETTINGS`);
* the watermark composition pipeline `add_watermark` (lines 115-203),
  embedded as the deterministic sequence of draw commands it issues,
  parameterised over the quantities PIL computes (decoded image size,
  measured text bounding box, rotated-layer size);
* the two async handlers `handle_text` (lines 638-693) and
  `default_watermark_task` (lines 567-600), embedded twice:
  - sequentially, as state-transformer functions on the three global
    per-user maps (`PENDING`, `USER_SETTINGS`, `USER_STATE`) returning
    the list of outward actions they perform, and
  - as interleaving state machines whose atomic steps are exactly the
    source's await-free regions (asyncio runs code between `await`
    points without preemption), used for the race properties.

Python `//` is embedded as `Int.fdiv` (floor division) and Python
float arithmetic as exact IEEE-754 binary64 rounding over `ℚ`.
-/

namespace ImageBot

/-! ### IEEE-754 binary64 model

`bot.py` computes `int(255 * (val / 100))` and
`int(base_font_size * size_factor)` with Python floats.  `rnd53 q`
rounds a nonnegative rational to the nearest binary64 value
(53 significand bits, round-to-nearest, ties-to-even); `pyInt`
truncates toward zero like Python's `int()` on a float. -/

/-- Ceiling of the base-2 logarithm, fuel-indexed (structural
recursion so that the kernel can evaluate it; a fuel of `c` always
suffices): the least `e` with `c ≤ 2 ^ e`. -/
def ceilLog2 : ℕ → ℕ → ℕ
  | 0, _ => 0
  | fuel + 1, c => if c ≤ 1 then 0 else ceilLog2 fuel ((c + 1) / 2) + 1

/-- Round the positive fraction `n / d` to the nearest IEEE-754
binary64 value (round-to-nearest, ties-to-even), returned as a
numerator-denominator pair `(m, 2 ^ e)` with `m / 2 ^ e` the rounded
value: scale into `[2 ^ 52, 2 ^ 53)` and round the scaled value to an
integer. -/
def rnd53Pair (n d : ℕ) : ℕ × ℕ :=
  if n = 0 then (0, 1) else
    -- least e with n * 2 ^ e ≥ d * 2 ^ 52, i.e. (n / d) * 2 ^ e ∈ [2 ^ 52, 2 ^ 53)
    let c : ℕ := (d * 2 ^ 52 + n - 1) / n
    let e : ℕ := ceilLog2 c c
    let a : ℕ := n * 2 ^ e
    let k : ℕ := a / d
    let r : ℕ := a % d
    let m : ℕ :=
      if 2 * r < d then k
      else if d < 2 * r then k + 1
      else if k % 2 = 0 then k else k + 1
    (m, 2 ^ e)

/-- Round a nonnegative rational to the nearest IEEE-754 binary64
value.  Nonpositive inputs are returned unchanged (the embedding only
applies it to nonnegative quantities). -/
def rnd53 (q : ℚ) : ℚ :=
  if q ≤ 0 then q
  else ((rnd53Pair q.num.toNat q.den).1 : ℚ) / ((rnd53Pair q.num.toNat q.den).2 : ℚ)

/-- Python `int()` applied to a (here: exactly represented) float:
truncation toward zero. -/
def pyInt (q : ℚ) : ℤ :=
  q.num / (q.den : ℤ)

/-- `int(255 * (v / 100))` for a nonnegative integer percentage `v`,
with both float operations rounded exactly as binary64 (truncating a
nonnegative value is integer division). -/
def alphaNat (v : ℕ) : ℕ :=
  let p1 := rnd53Pair v 100
  let p2 := rnd53Pair (255 * p1.1) p1.2
  p2.1 / p2.2

/-- The stored alpha value produced by the transparency handler:
`int(255 * (val / 100))` (bot.py line 658) under exact binary64
semantics; rounding and truncation are sign-symmetric, so the negative
case reduces to the nonnegative one (the caller clamps to 0-100
anyway). -/
def alpha_from_percent (val : ℤ) : ℤ :=
  if val < 0 then -(alphaNat val.natAbs : ℤ) else (alphaNat val.toNat : ℤ)

/-! ### Settings store (bot.py lines 36-42 and 98-101)

A Python settings dict may lack recognised keys, so every field is an
`Option`; `none` models an absent key. -/

/-- A per-user settings record; `none` fields model keys absent from
the Python dict. -/
structure SettingsRec where
  size_factor : Option ℚ
  color : Option (ℤ × ℤ × ℤ)
  alpha : Option ℤ
  position : Option String
  font : Option String
deriving DecidableEq

/-- bot.py lines 36-42. -/
def DEFAULT_SETTINGS : SettingsRec :=
  { size_factor := some 1
    color := some (255, 255, 255)
    alpha := some 220
    position := some "bottom_right"
    font := some "default" }

/-- The `USER_SETTINGS` global map. -/
def Store : Type := ℕ → Option SettingsRec

/-- bot.py lines 98-101: create (and persist) a copy of the defaults on
first access, otherwise return the stored record as-is.  Returns the
(possibly extended) store together with the record handed to the
caller. -/
def get_user_settings (store : Store) (user_id : ℕ) : Store × SettingsRec :=
  match store user_id with
  | none => (fun u => if u = user_id then some DEFAULT_SETTINGS else store u, DEFAULT_SETTINGS)
  | some s => (store, s)

/-- A record with every absent field replaced by the documented
default, exactly the per-field fallbacks `add_watermark` applies with
`settings.get(key, default)` (bot.py lines 119-123). -/
def backfill (r : SettingsRec) : SettingsRec :=
  { size_factor := some (r.size_factor.getD 1)
    color := some (r.color.getD (255, 255, 255))
    alpha := some (r.alpha.getD 220)
    position := some (r.position.getD "bottom_right")
    font := some (r.font.getD "default") }

/-! ### Watermark composition (bot.py lines 115-203)

`add_watermark` is embedded as the sequence of drawing commands it
performs; the encoded output bytes are a function of this sequence,
the decoded source image and the fixed JPEG quality, so equality of
command sequences gives byte-for-byte equal outputs.  The quantities
PIL computes are parameters: `W H` the decoded image size, `tw th`
the measured text bounding box, `rw rh` the size of the rotated
layer in the diagonal branch. -/

/-- An RGBA fill. -/
def Fill : Type := ℤ × ℤ × ℤ × ℤ

instance : DecidableEq Fill := by
  unfold Fill
  infer_instance

/-- One drawing command issued while building the text layer. -/
inductive DrawCmd where
  | text (x y : ℤ) (txt : String) (fill : Fill) (font_key : String) (font_size : ℤ)
  | rotateCropComposite (angle : ℤ) (left top right bottom : ℤ)
deriving DecidableEq

/-- The placement `add_watermark` selects for a position string. -/
inductive Placement where
  | at (x y : ℤ)
  | diag (cx cy angle left top : ℤ)
deriving DecidableEq

/-- The fixed margin (bot.py line 139). -/
def wmMargin : ℤ := 20

/-- The coordinate selection of bot.py lines 149-196: one `(x, y)`
origin for the five plain positions, the rotate-and-crop instruction
for the two diagonal positions, and the final `else` branch (line
193) for everything else. -/
def wmPlacement (W H tw th rw rh : ℤ) (position : String) : Placement :=
  let margin := wmMargin
  if position = "top_right" then
    .at (max margin (W - tw - margin)) margin
  else if position = "top_left" then
    .at margin margin
  else if position = "bottom_left" then
    .at margin (max margin (H - th - margin))
  else if position = "center" then
    .at (max margin (Int.fdiv (W - tw) 2)) (max margin (Int.fdiv (H - th) 2))
  else if position = "bottom_right" then
    .at (max margin (W - tw - margin)) (max margin (H - th - margin))
  else if position = "diag_tl_br" ∨ position = "diag_bl_tr" then
    .diag (Int.fdiv (W - tw) 2) (Int.fdiv (H - th) 2)
      (if position = "diag_tl_br" then -35 else 35)
      (max 0 (Int.fdiv (rw - W) 2)) (max 0 (Int.fdiv (rh - H) 2))
  else
    .at (max margin (W - tw - margin)) (max margin (H - th - margin))

/-- The drawing commands `add_watermark` issues, in order.  Mirrors
bot.py lines 119-196: per-field defaults via `settings.get`, the font
size computation, the clamped main fill, the fixed shadow fill, the
`draw_at` shadow-then-main pair, and the placement branches. -/
def addWatermarkOps (W H tw th rw rh : ℤ) (text : String) (settings : SettingsRec) :
    List DrawCmd :=
  let size_factor := settings.size_factor.getD 1
  let color := settings.color.getD (255, 255, 255)
  let alpha := settings.alpha.getD 220
  let position := settings.position.getD "bottom_right"
  let font_key := settings.font.getD "default"
  let base_font_size : ℤ := max 20 (Int.fdiv W 20)
  let font_size : ℤ := max 10 (pyInt (rnd53 ((base_font_size : ℚ) * size_factor)))
  let main_fill : Fill := (color.1, color.2.1, color.2.2, max 0 (min alpha 255))
  let shadow_fill : Fill := (0, 0, 0, 160)
  let draw_at (x y : ℤ) : List DrawCmd :=
    [.text (x + 2) (y + 2) text shadow_fill font_key font_size,
     .text x y text main_fill font_key font_size]
  match wmPlacement W H tw th rw rh position with
  | .at x y => draw_at x y
  | .diag cx cy angle left top =>
      draw_at cx cy ++ [.rotateCropComposite angle left top (left + W) (top + H)]

/-! ### Text transformer -/

/-- Modelled from the spec: the Text Transformer of spec section 4.2 is
absent from `src/bot.py` (no transform field is stored and
`add_watermark` draws its input text unmodified), so it is modelled
from the spec's words: `upper`/`lower` case-fold, `spaced` inserts a
single space between every code point, `boxed` wraps the text in a
fixed bracket pair, and `normal` or any unrecognised mode returns the
input unchanged. -/
def transform (text : String) (mode : String) : String :=
  if mode = "upper" then text.toUpper
  else if mode = "lower" then text.toLower
  else if mode = "spaced" then String.mk (List.intersperse ' ' text.toList)
  else if mode = "boxed" then "[" ++ text ++ "]"
  else text

/-! ### Sequential embedding of the two handlers

`handle_text` (bot.py lines 638-693) and `default_watermark_task`
(lines 567-600) are embedded as functions from the three global
per-user maps to the updated maps plus the list of outward actions
performed (task cancellation, chat messages, photo deliveries).

The `add_watermark` call is abstracted as a `Compose` parameter
returning `none` when the call raises (in particular when the image
bytes cannot be decoded, which depends only on the bytes); the
handlers' own control flow is embedded verbatim. -/

/-- One entry of the `PENDING` map (bot.py lines 625-629). -/
structure PendingRec where
  image_bytes : List ℕ
  chat_id : ℕ
  has_task : Bool
deriving DecidableEq

/-- The three global mutable maps of bot.py lines 29-31. -/
structure BotState where
  PENDING : ℕ → Option PendingRec
  USER_SETTINGS : Store
  USER_STATE : ℕ → Option String

/-- Outward-visible actions a handler performs, in program order. -/
inductive Action where
  | cancel_task
  | reply_text (chat : ℕ) (msg : String)
  | send_photo (chat : ℕ) (photo : List ℕ) (caption : String)
deriving DecidableEq

/-- Map update `m[k] = v`. -/
def mapInsert {α : Type} (m : ℕ → Option α) (k : ℕ) (v : α) : ℕ → Option α :=
  fun u => if u = k then some v else m u

/-- Map removal `m.pop(k, None)`. -/
def mapErase {α : Type} (m : ℕ → Option α) (k : ℕ) : ℕ → Option α :=
  fun u => if u = k then none else m u

/-- Outcome of an `add_watermark` call: `some bytes` on success, `none`
when the call raises. -/
def Compose : Type := List ℕ → String → SettingsRec → Option (List ℕ)

/-- bot.py line 33. -/
def DEFAULT_WATERMARK : String := "@RPSC_RSMSSB_BOARD"

/-- Python `str.strip()`: drop whitespace from both ends. -/
def pyStrip (s : String) : String :=
  ⟨((s.data.dropWhile Char.isWhitespace).reverse.dropWhile Char.isWhitespace).reverse⟩

/-- Python `text.startswith("/")`. -/
def startsWithSlash (s : String) : Bool :=
  match s.data with
  | [] => false
  | c :: _ => c = '/'

/-- Decimal digits to a number, `none` unless the list is nonempty and
all digits. -/
def parseDigits (l : List Char) : Option ℕ :=
  if l = [] then none
  else if l.all Char.isDigit then
    some (l.foldl (fun a c => 10 * a + (c.toNat - '0'.toNat)) 0)
  else none

/-- Python `int(text)` on the already-stripped text: an optional sign
followed by decimal digits (underscore grouping and non-ASCII digits
are not modelled). -/
def pyParseInt (s : String) : Option ℤ :=
  match s.data with
  | '-' :: rest => (parseDigits rest).map (fun n => -(n : ℤ))
  | '+' :: rest => (parseDigits rest).map (fun n => (n : ℤ))
  | l => (parseDigits l).map (fun n => (n : ℤ))

/-- bot.py lines 567-600, `default_watermark_task`, taken from the
point its sleep ends: `cancelled` tells whether the sleep was ended by
cancellation (the `except asyncio.CancelledError: return` branch).
Otherwise the body checks `PENDING`, fetches settings (creating the
default record on first access), composes the default watermark, and
either reports the failure and pops the session, or pops the session
and delivers the photo. -/
def default_watermark_task (cancelled : Bool) (compose : Compose)
    (st : BotState) (user_id : ℕ) : BotState × List Action :=
  if cancelled then (st, [])
  else
    match st.PENDING user_id with
    | none => (st, [])
    | some pending =>
      let gs := get_user_settings st.USER_SETTINGS user_id
      match compose pending.image_bytes DEFAULT_WATERMARK gs.2 with
      | none =>
        ({ st with USER_SETTINGS := gs.1, PENDING := mapErase st.PENDING user_id },
         [Action.reply_text pending.chat_id "❌ Default watermark लगाते समय error आ गया."])
      | some wm =>
        ({ st with USER_SETTINGS := gs.1, PENDING := mapErase st.PENDING user_id },
         [Action.send_photo pending.chat_id wm
            ("⌛ Time khatam.\nDefault watermark laga diya: " ++ DEFAULT_WATERMARK)])

/-- bot.py lines 638-693, `handle_text`: the transparency-input branch
(strip, command check, `int` parse, clamp to 0-100, store
`int(255 * (val / 100))`, clear the flag), the command early-return,
and the watermark branch (session lookup, timer cancel, compose,
failure report or delivery, session pop).  `String.toInt?` models
Python `int()` on the already-stripped text. -/
def handle_text (compose : Compose) (st : BotState) (user_id chat_id : ℕ)
    (raw : String) : BotState × List Action :=
  let text := pyStrip raw
  if st.USER_STATE user_id = some "awaiting_transparency" then
    if startsWithSlash text then
      ({ st with USER_STATE := mapErase st.USER_STATE user_id }, [])
    else
      match pyParseInt text with
      | none =>
        (st, [Action.reply_text chat_id "कृपया 0 से 100 के बीच कोई संख्या भेजो, जैसे 60."])
      | some v =>
        let val := max 0 (min 100 v)
        let gs := get_user_settings st.USER_SETTINGS user_id
        let newSettings := { gs.2 with alpha := some (alpha_from_percent val) }
        ({ st with USER_SETTINGS := mapInsert gs.1 user_id newSettings,
                   USER_STATE := mapErase st.USER_STATE user_id },
         [Action.reply_text chat_id
            ("✅ Transparency " ++ toString val ++ "% सेट हो गई.")])
  else if startsWithSlash text then (st, [])
  else
    match st.PENDING user_id with
    | none => (st, [])
    | some pending =>
      let cancels : List Action := if pending.has_task then [Action.cancel_task] else []
      let gs := get_user_settings st.USER_SETTINGS user_id
      match compose pending.image_bytes text gs.2 with
      | none =>
        ({ st with USER_SETTINGS := gs.1, PENDING := mapErase st.PENDING user_id },
         cancels ++ [Action.reply_text chat_id "❌ Watermark लगाते समय error आ गया."])
      | some wm =>
        ({ st with USER_SETTINGS := gs.1, PENDING := mapErase st.PENDING user_id },
         cancels ++ [Action.send_photo chat_id wm ("✅ Watermark laga diya: " ++ text)])

/-! ### Interleaving machine, one upload (race of bot.py lines 567-600
against lines 666-693)

asyncio runs the code between two `await` points of a task without
preemption, so the machine's atomic steps are exactly the await-free
regions of the source:

* `fire`: the sleep of `default_watermark_task` completes and the body
  runs up to its next await: it checks `PENDING` (pop happens in the
  same region on the success path; the failure path stays suspended at
  the error-message await);
* `terrResume` / `tsendResume`: the corresponding awaited send
  completes (the failure path pops the session right after its await);
* `textArrive`: a plain-text message is queued for the user;
* `runH`: `handle_text` runs from its start to its first await: session
  lookup, timer cancel, compose, and pop on the success path;
* `herrResume` / `hsendResume`: its awaited send completes.

Cancelling a task kills it at whichever await it is suspended
(`cancelTask`); a task cancelled during its sleep returns without
running its body.  `dk` says whether `add_watermark` succeeds on the
uploaded bytes (decoding depends only on the bytes, so the two paths
agree on it).  `delivered` counts completed photo sends and `errors`
completed error notifications. -/

/-- Phase of the timeout task. -/
inductive TPh where
  | sleeping | errWait | sendWait | tDone
deriving DecidableEq

/-- Phase of the text-handler path. -/
inductive HPh where
  | idle | ready | herrWait | hsendWait | hDone
deriving DecidableEq

/-- State of the one-upload race. -/
structure S1 where
  pending : Bool
  timer : TPh
  handler : HPh
  delivered : ℕ
  errors : ℕ
deriving DecidableEq

/-- Scheduler moves. -/
inductive Mv1 where
  | fire | terrResume | tsendResume | textArrive | runH | herrResume | hsendResume
deriving DecidableEq

/-- `task.cancel()`: the CancelledError fires at the task's current
await, so the task never runs past it. -/
def cancelTask : TPh → TPh
  | .sleeping => .tDone
  | .errWait => .tDone
  | .sendWait => .tDone
  | .tDone => .tDone

/-- One atomic step of the one-upload race. -/
def step1 (dk : Bool) (s : S1) : Mv1 → S1
  | .fire =>
    if s.timer = .sleeping then
      if s.pending then
        if dk then { s with pending := false, timer := .sendWait }
        else { s with timer := .errWait }
      else { s with timer := .tDone }
    else s
  | .terrResume =>
    if s.timer = .errWait then
      { s with pending := false, timer := .tDone, errors := s.errors + 1 }
    else s
  | .tsendResume =>
    if s.timer = .sendWait then
      { s with timer := .tDone, delivered := s.delivered + 1 }
    else s
  | .textArrive =>
    if s.handler = .idle ∨ s.handler = .hDone then { s with handler := .ready } else s
  | .runH =>
    if s.handler = .ready then
      if s.pending then
        if dk then
          { s with pending := false, handler := .hsendWait, timer := cancelTask s.timer }
        else { s with handler := .herrWait, timer := cancelTask s.timer }
      else { s with handler := .hDone }
    else s
  | .herrResume =>
    if s.handler = .herrWait then
      { s with pending := false, handler := .hDone, errors := s.errors + 1 }
    else s
  | .hsendResume =>
    if s.handler = .hsendWait then
      { s with handler := .hDone, delivered := s.delivered + 1 }
    else s

/-- State right after `handle_photo` stored the session and started the
timer. -/
def init1 : S1 :=
  { pending := true, timer := .sleeping, handler := .idle, delivered := 0, errors := 0 }

/-- Run a schedule. -/
def run1 (dk : Bool) (ms : List Mv1) : S1 :=
  ms.foldl (step1 dk) init1

/-- A state in which no task step is runnable any more: the timeout
task has finished and no queued text handler is left. -/
def terminal1 (s : S1) : Prop :=
  s.timer = .tDone ∧ (s.handler = .idle ∨ s.handler = .hDone)

/-! ### Interleaving machine, two uploads (last-photo-wins)

Same atomicity model, but the session record carries the uploaded
image (0 for the first photo, 1 for the second) and the identity of
the timer task guarding it, there is one timeout task per upload, and
`handle_photo_swap` is the await-free region of `handle_photo`
(bot.py lines 617-629) that replaces the session: cancel the old
record's task, start the new timer, store the new record.  A firing
timer composes whatever session is currently stored (the body only
keys on the user id), exactly as in the source.  Deliveries record
which image they were composed from. -/

/-- Identity of a timeout task. -/
inductive TId where
  | A | B
deriving DecidableEq

/-- Phase of a timeout task; a pending photo send remembers the image
it was composed from. -/
inductive TPh2 where
  | sleeping | errWait | sendWait (img : ℕ) | tDone
deriving DecidableEq

/-- Phase of the text-handler path. -/
inductive HPh2 where
  | idle | ready | herrWait | hsendWait (img : ℕ) | hDone
deriving DecidableEq

/-- State of the two-upload race. -/
structure S2 where
  pending : Option (ℕ × TId)
  timerA : TPh2
  timerB : TPh2
  handler : HPh2
  delivered : List ℕ
  errors : ℕ
deriving DecidableEq

/-- The phase of a given timer. -/
def getT (s : S2) : TId → TPh2
  | .A => s.timerA
  | .B => s.timerB

/-- Replace the phase of a given timer. -/
def setT (s : S2) (t : TId) (ph : TPh2) : S2 :=
  match t with
  | .A => { s with timerA := ph }
  | .B => { s with timerB := ph }

/-- `task.cancel()` in the two-upload machine. -/
def cancelTask2 : TPh2 → TPh2 := fun _ => .tDone

/-- The timeout body of timer `t` wakes from its sleep and runs to its
next await (bot.py lines 573-592): it composes whatever session is
currently stored under the user id. -/
def fire2 (dk : Bool) (s : S2) (t : TId) : S2 :=
  if getT s t = .sleeping then
    match s.pending with
    | none => setT s t .tDone
    | some (img, _) =>
      if dk then { setT s t (.sendWait img) with pending := none }
      else setT s t .errWait
  else s

/-- The awaited error notification of timer `t` completes; the body
then pops the session (bot.py line 589). -/
def terr2 (s : S2) (t : TId) : S2 :=
  if getT s t = .errWait then
    { setT s t .tDone with pending := none, errors := s.errors + 1 }
  else s

/-- The awaited photo send of timer `t` completes. -/
def tsend2 (s : S2) (t : TId) : S2 :=
  match getT s t with
  | .sendWait img => { setT s t .tDone with delivered := s.delivered ++ [img] }
  | _ => s

/-- Scheduler moves of the two-upload race. -/
inductive Mv2 where
  | fireA | fireB | terrA | terrB | tsendA | tsendB
  | textArrive | runH | herrResume | hsendResume
deriving DecidableEq

/-- One atomic step of the two-upload race. -/
def step2 (dk : Bool) (s : S2) : Mv2 → S2
  | .fireA => fire2 dk s .A
  | .fireB => fire2 dk s .B
  | .terrA => terr2 s .A
  | .terrB => terr2 s .B
  | .tsendA => tsend2 s .A
  | .tsendB => tsend2 s .B
  | .textArrive =>
    if s.handler = .idle ∨ s.handler = .hDone then { s with handler := .ready } else s
  | .runH =>
    if s.handler = .ready then
      match s.pending with
      | none => { s with handler := .hDone }
      | some (img, tid) =>
        let s1 := setT s tid (cancelTask2 (getT s tid))
        if dk then { s1 with pending := none, handler := .hsendWait img }
        else { s1 with handler := .herrWait }
    else s
  | .herrResume =>
    if s.handler = .herrWait then
      { s with pending := none, handler := .hDone, errors := s.errors + 1 }
    else s
  | .hsendResume =>
    match s.handler with
    | .hsendWait img => { s with handler := .hDone, delivered := s.delivered ++ [img] }
    | _ => s

/-- bot.py lines 617-629 on arrival of the second photo: cancel the old
record's task, start timer B, store the new session (image 1, guarded
by B). -/
def handle_photo_swap (s : S2) : S2 :=
  let s1 :=
    match s.pending with
    | some (_, tid) => setT s tid (cancelTask2 (getT s tid))
    | none => s
  { s1 with pending := some (1, .B), timerB := .sleeping }

/-- State while the first upload (image 0) is awaiting text: its
session is stored and timer A is sleeping.  Timer B does not exist
yet (inert). -/
def init2base : S2 :=
  { pending := some (0, .A), timerA := .sleeping, timerB := .tDone,
    handler := .idle, delivered := [], errors := 0 }

/-- State right after the second photo replaced the session. -/
def init2 : S2 := handle_photo_swap init2base

/-- Run a schedule of the two-upload race from `init2`. -/
def run2 (ms : List Mv2) : S2 :=
  ms.foldl (step2 true) init2

/-- Both timeout tasks finished and no queued text handler is left. -/
def terminal2 (s : S2) : Prop :=
  s.timerA = .tDone ∧ s.timerB = .tDone ∧ (s.handler = .idle ∨ s.handler = .hDone)

/-! ### Invariants of the race machines -/

/-- Reachability invariant of the one-upload race when composition
succeeds: the session token moves from the pending slot to exactly one
in-flight send and then to the delivery counter. -/
def Inv1T (s : S1) : Prop :=
  (s.pending = true ∧ s.timer = .sleeping ∧
    (s.handler = .idle ∨ s.handler = .ready) ∧ s.delivered = 0)
  ∨ (s.pending = false ∧ s.timer = .sendWait ∧
    (s.handler = .idle ∨ s.handler = .ready ∨ s.handler = .hDone) ∧ s.delivered = 0)
  ∨ (s.pending = false ∧ s.timer = .tDone ∧ s.handler = .hsendWait ∧ s.delivered = 0)
  ∨ (s.pending = false ∧ s.timer = .tDone ∧
    (s.handler = .idle ∨ s.handler = .ready ∨ s.handler = .hDone) ∧ s.delivered = 1)

lemma inv1T_init : Inv1T init1 := by
  simp [Inv1T, init1]

lemma inv1T_step (s : S1) (m : Mv1) (h : Inv1T s) : Inv1T (step1 true s m) := by
  obtain ⟨p, t, hd, dv, er⟩ := s
  simp only [Inv1T] at h ⊢
  rcases h with ⟨rfl, rfl, rfl | rfl, rfl⟩ | ⟨rfl, rfl, rfl | rfl | rfl, rfl⟩ |
      ⟨rfl, rfl, rfl, rfl⟩ | ⟨rfl, rfl, rfl | rfl | rfl, rfl⟩ <;>
    cases m <;> simp [step1, cancelTask]

lemma inv1T_run (ms : List Mv1) (s : S1) (h : Inv1T s) :
    Inv1T (ms.foldl (step1 true) s) := by
  induction ms generalizing s with
  | nil => exact h
  | cons m ms ih => exact ih _ (inv1T_step s m h)

/-- Reachability invariant of the one-upload race when composition
fails: nothing is ever delivered, and the session can only disappear
together with a completed error notification. -/
def Inv1F (s : S1) : Prop :=
  (s.pending = true ∧ s.timer = .sleeping ∧
    (s.handler = .idle ∨ s.handler = .ready) ∧ s.delivered = 0)
  ∨ (s.pending = true ∧ s.timer = .errWait ∧
    (s.handler = .idle ∨ s.handler = .ready) ∧ s.delivered = 0)
  ∨ (s.pending = true ∧ s.timer = .tDone ∧ s.handler = .herrWait ∧ s.delivered = 0)
  ∨ (s.pending = false ∧ s.timer = .tDone ∧
    (s.handler = .idle ∨ s.handler = .ready ∨ s.handler = .hDone) ∧
    s.delivered = 0 ∧ 1 ≤ s.errors)

lemma inv1F_init : Inv1F init1 := by
  simp [Inv1F, init1]

lemma inv1F_step (s : S1) (m : Mv1) (h : Inv1F s) : Inv1F (step1 false s m) := by
  obtain ⟨p, t, hd, dv, er⟩ := s
  simp only [Inv1F] at h ⊢
  rcases h with ⟨rfl, rfl, rfl | rfl, rfl⟩ | ⟨rfl, rfl, rfl | rfl, rfl⟩ |
      ⟨rfl, rfl, rfl, rfl⟩ | ⟨rfl, rfl, rfl | rfl | rfl, rfl, her⟩ <;>
    cases m <;> simp [step1, cancelTask] <;> omega

lemma inv1F_run (ms : List Mv1) (s : S1) (h : Inv1F s) :
    Inv1F (ms.foldl (step1 false) s) := by
  induction ms generalizing s with
  | nil => exact h
  | cons m ms ih => exact ih _ (inv1F_step s m h)

/-- Reachability invariant of the two-upload race (composition
succeeds) from the state right after the second upload: timer A stays
dead and the only token in flight is image 1 guarded by timer B. -/
def Inv2 (s : S2) : Prop :=
  s.timerA = .tDone ∧
  ((s.pending = some (1, .B) ∧ s.timerB = .sleeping ∧
      (s.handler = .idle ∨ s.handler = .ready) ∧ s.delivered = [])
  ∨ (s.pending = none ∧ s.timerB = .sendWait 1 ∧
      (s.handler = .idle ∨ s.handler = .ready ∨ s.handler = .hDone) ∧ s.delivered = [])
  ∨ (s.pending = none ∧ s.timerB = .tDone ∧ s.handler = .hsendWait 1 ∧ s.delivered = [])
  ∨ (s.pending = none ∧ s.timerB = .tDone ∧
      (s.handler = .idle ∨ s.handler = .ready ∨ s.handler = .hDone) ∧ s.delivered = [1]))

lemma inv2_init : Inv2 init2 := by
  simp [Inv2, init2, handle_photo_swap, init2base, setT, getT, cancelTask2]

lemma inv2_step (s : S2) (m : Mv2) (h : Inv2 s) : Inv2 (step2 true s m) := by
  obtain ⟨pd, ta, tb, hd, dv, er⟩ := s
  simp only [Inv2] at h ⊢
  obtain ⟨rfl, hP⟩ := h
  rcases hP with ⟨rfl, rfl, rfl | rfl, rfl⟩ | ⟨rfl, rfl, rfl | rfl | rfl, rfl⟩ |
      ⟨rfl, rfl, rfl, rfl⟩ | ⟨rfl, rfl, rfl | rfl | rfl, rfl⟩ <;>
    cases m <;> simp [step2, fire2, terr2, tsend2, getT, setT, cancelTask2]

lemma inv2_run (ms : List Mv2) (s : S2) (h : Inv2 s) :
    Inv2 (ms.foldl (step2 true) s) := by
  induction ms generalizing s with
  | nil => exact h
  | cons m ms ih => exact ih _ (inv2_step s m h)

/-! ### Example states used by witnesses -/

/-- A bot state with all three maps empty. -/
def emptyBot : BotState :=
  { PENDING := fun _ => none, USER_SETTINGS := fun _ => none, USER_STATE := fun _ => none }

/-- A bot state in which user 7 has a pending session (image bytes
`[1, 2]`, chat 9, timer running) and nothing else. -/
def botWithPending : BotState :=
  { PENDING := fun u => if u = 7 then some ⟨[1, 2], 9, true⟩ else none,
    USER_SETTINGS := fun _ => none, USER_STATE := fun _ => none }

/-- A bot state in which user 7 has the transparency-input flag set. -/
def botAwait : BotState :=
  { PENDING := fun _ => none, USER_SETTINGS := fun _ => none,
    USER_STATE := fun u => if u = 7 then some "awaiting_transparency" else none }

/-- A settings store whose record for user 1 has every recognised key
absent. -/
def partialStore : Store :=
  fun u => if u = 1 then some ⟨none, none, none, none, none⟩ else none

/-! ### Claims -/

/-- C1: across every interleaving of the text-arrival path and the
timeout path of one upload (composition succeeding), exactly one
composed image is delivered — never zero, never two; and the timeout
body, on waking and finding the session already consumed, performs no
composition, no delivery and no state change at all. -/
theorem claim_C1 :
    (∀ ms : List Mv1, terminal1 (run1 true ms) → (run1 true ms).delivered = 1)
    ∧ (∀ (compose : Compose) (st : BotState) (user_id : ℕ),
        st.PENDING user_id = none →
        default_watermark_task false compose st user_id = (st, [])) := by
  constructor
  · intro ms ht
    have h := inv1T_run ms init1 inv1T_init
    obtain ⟨ht1, ht2⟩ := ht
    rcases h with ⟨_, ht', _, _⟩ | ⟨_, ht', _, _⟩ | ⟨_, _, hh', _⟩ | ⟨_, _, _, hdv⟩ <;>
      simp_all [run1, terminal1]
  · intro compose st user_id h
    simp [default_watermark_task, h]

/-- C1 witness: a concrete schedule (timer fires, then its photo send
completes) reaches a terminal state with exactly one delivery, and the
timeout body is inert on a state with no pending session. -/
theorem claim_C1_witness :
    (run1 true [Mv1.fire, Mv1.tsendResume]).delivered = 1
    ∧ default_watermark_task false (fun _ _ _ => none) emptyBot 7 = (emptyBot, []) :=
  ⟨claim_C1.1 [Mv1.fire, Mv1.tsendResume] (by constructor <;> decide),
   claim_C1.2 (fun _ _ _ => none) emptyBot 7 rfl⟩

/-- C2: when the second photo arrives while the first session is still
awaiting text, `handle_photo` cancels the prior timer and replaces the
session before the new timer can act, and from then on every
interleaving delivers exactly once, composed from the second image
(image 1), with no delivery derived from the first (image 0). -/
theorem claim_C2 :
    (init2.pending = some (1, TId.B) ∧ init2.timerA = TPh2.tDone
      ∧ init2.timerB = TPh2.sleeping ∧ init2.delivered = [])
    ∧ (∀ ms : List Mv2, terminal2 (run2 ms) → (run2 ms).delivered = [1]) := by
  refine ⟨⟨rfl, rfl, rfl, rfl⟩, ?_⟩
  intro ms ht
  have h := inv2_run ms init2 inv2_init
  obtain ⟨ht1, ht2, ht3⟩ := ht
  obtain ⟨hA, hP⟩ := h
  rcases hP with ⟨_, htB, _, _⟩ | ⟨_, htB, _, _⟩ | ⟨_, _, hh', _⟩ | ⟨_, _, _, hdv⟩ <;>
    simp_all [run2, terminal2]

/-- C2 witness: the schedule where timer B fires and its send completes
is terminal and delivered exactly the second image. -/
theorem claim_C2_witness :
    (run2 [Mv2.fireB, Mv2.tsendB]).delivered = [1] :=
  claim_C2.2 [Mv2.fireB, Mv2.tsendB] (by refine ⟨?_, ?_, ?_⟩ <;> decide)

/-- C3 counterexample: for a stored record with every recognised key
absent, the settings-store get operation returns the record with the
alpha field still absent instead of backfilled with the documented
default 220, refuting the claim that every field of the returned
record is populated. -/
theorem claim_C3_cex :
    (get_user_settings partialStore 1).2.alpha = none
    ∧ DEFAULT_SETTINGS.alpha = some 220 :=
  ⟨rfl, rfl⟩

/-- C3 (amended): `get_user_settings` populates every field only on
first access (absent user), where it returns and stores the full
default record; an existing stored record is returned unchanged, with
no backfill.  Missing fields are instead defaulted at composition
time: `add_watermark` reads each field with a per-field fallback, so
compositing with a partial record is identical to compositing with
the backfilled record. -/
theorem claim_C3 :
    (∀ (store : Store) (user_id : ℕ), store user_id = none →
        (get_user_settings store user_id).2 = DEFAULT_SETTINGS
        ∧ (get_user_settings store user_id).1 user_id = some DEFAULT_SETTINGS)
    ∧ (∀ (store : Store) (user_id : ℕ) (r : SettingsRec), store user_id = some r →
        get_user_settings store user_id = (store, r))
    ∧ (∀ (W H tw th rw rh : ℤ) (text : String) (r : SettingsRec),
        addWatermarkOps W H tw th rw rh text r
          = addWatermarkOps W H tw th rw rh text (backfill r)) := by
  refine ⟨?_, ?_, ?_⟩
  · intro store user_id h
    simp [get_user_settings, h]
  · intro store user_id r h
    simp [get_user_settings, h]
  · intro W H tw th rw rh text r
    simp [addWatermarkOps, backfill]

/-- C3 witness: first access of an absent user yields the full default
record; the partial record of `partialStore` is returned as stored;
and compositing with it equals compositing with its backfill. -/
theorem claim_C3_witness :
    (get_user_settings (fun _ => none) 3).2 = DEFAULT_SETTINGS
    ∧ get_user_settings partialStore 1 = (partialStore, ⟨none, none, none, none, none⟩)
    ∧ addWatermarkOps 100 80 5 5 0 0 "hi" ⟨none, none, none, none, none⟩
        = addWatermarkOps 100 80 5 5 0 0 "hi" (backfill ⟨none, none, none, none, none⟩) :=
  ⟨(claim_C3.1 (fun _ => none) 3 rfl).1,
   claim_C3.2.1 partialStore 1 ⟨none, none, none, none, none⟩ rfl,
   claim_C3.2.2 100 80 5 5 0 0 "hi" ⟨none, none, none, none, none⟩⟩

/-- C4: compositing with an unrecognised position string issues exactly
the drawing commands of `bottom_right` with all other settings
identical; the encoded output bytes are a function of these commands,
the decoded image and the fixed encoding parameters, hence
byte-for-byte equal. -/
theorem claim_C4 (W H tw th rw rh : ℤ) (text : String) (s : SettingsRec) (p : String)
    (h1 : p ≠ "top_right") (h2 : p ≠ "top_left") (h3 : p ≠ "bottom_left")
    (h4 : p ≠ "center") (h5 : p ≠ "bottom_right") (h6 : p ≠ "diag_tl_br")
    (h7 : p ≠ "diag_bl_tr") :
    addWatermarkOps W H tw th rw rh text { s with position := some p }
      = addWatermarkOps W H tw th rw rh text { s with position := some "bottom_right" } := by
  simp [addWatermarkOps, wmPlacement, h1, h2, h3, h4, h5, h6, h7]

/-- C4 witness: the unrecognised position "somewhere" composites
exactly like "bottom_right". -/
theorem claim_C4_witness :
    addWatermarkOps 400 300 50 20 0 0 "hello"
        { DEFAULT_SETTINGS with position := some "somewhere" }
      = addWatermarkOps 400 300 50 20 0 0 "hello"
        { DEFAULT_SETTINGS with position := some "bottom_right" } :=
  claim_C4 400 300 50 20 0 0 "hello" DEFAULT_SETTINGS "somewhere"
    (by decide) (by decide) (by decide) (by decide) (by decide) (by decide) (by decide)

/-- C5: when composition fails (modelled by an `add_watermark` that
raises on every call, as decoding failure does, since it depends only
on the bytes), the text path and the timeout path each catch the
failure, send an error notification, discard the session and deliver
nothing; and across every interleaving of the two racing paths no
image is ever delivered, the session ends discarded, and at least one
error notification completes. -/
theorem claim_C5 :
    (∀ (st : BotState) (user_id chat_id : ℕ) (raw : String) (p : PendingRec),
        st.USER_STATE user_id ≠ some "awaiting_transparency" →
        startsWithSlash (pyStrip raw) = false →
        st.PENDING user_id = some p → p.has_task = true →
        handle_text (fun _ _ _ => none) st user_id chat_id raw
          = ({ st with USER_SETTINGS := (get_user_settings st.USER_SETTINGS user_id).1,
                       PENDING := mapErase st.PENDING user_id },
             [Action.cancel_task,
              Action.reply_text chat_id "❌ Watermark लगाते समय error आ गया."]))
    ∧ (∀ (st : BotState) (user_id : ℕ) (p : PendingRec),
        st.PENDING user_id = some p →
        default_watermark_task false (fun _ _ _ => none) st user_id
          = ({ st with USER_SETTINGS := (get_user_settings st.USER_SETTINGS user_id).1,
                       PENDING := mapErase st.PENDING user_id },
             [Action.reply_text p.chat_id "❌ Default watermark लगाते समय error आ गया."]))
    ∧ (∀ ms : List Mv1, terminal1 (run1 false ms) →
        (run1 false ms).delivered = 0 ∧ (run1 false ms).pending = false
          ∧ 1 ≤ (run1 false ms).errors) := by
  refine ⟨?_, ?_, ?_⟩
  · intro st user_id chat_id raw p h1 h2 h3 h4
    simp [handle_text, h1, h2, h3, h4]
  · intro st user_id p h
    simp [default_watermark_task, h]
  · intro ms ht
    have h := inv1F_run ms init1 inv1F_init
    obtain ⟨ht1, ht2⟩ := ht
    rcases h with ⟨_, ht', _, _⟩ | ⟨_, ht', _, _⟩ | ⟨_, _, hh', _⟩ | ⟨_, _, _, hdv, her⟩ <;>
      simp_all [run1, terminal1]

/-- C5 witness: on a concrete state with a pending session and
undecodable bytes, the text path and the timeout path each report and
discard; the schedule where the timer fires and its error send
completes ends with zero deliveries, no session and one error. -/
theorem claim_C5_witness :
    (handle_text (fun _ _ _ => none) botWithPending 7 9 "hello"
      = ({ botWithPending with
             USER_SETTINGS := (get_user_settings botWithPending.USER_SETTINGS 7).1,
             PENDING := mapErase botWithPending.PENDING 7 },
         [Action.cancel_task,
          Action.reply_text 9 "❌ Watermark लगाते समय error आ गया."]))
    ∧ (default_watermark_task false (fun _ _ _ => none) botWithPending 7
      = ({ botWithPending with
             USER_SETTINGS := (get_user_settings botWithPending.USER_SETTINGS 7).1,
             PENDING := mapErase botWithPending.PENDING 7 },
         [Action.reply_text 9 "❌ Default watermark लगाते समय error आ गया."]))
    ∧ ((run1 false [Mv1.fire, Mv1.terrResume]).delivered = 0
        ∧ (run1 false [Mv1.fire, Mv1.terrResume]).pending = false
        ∧ 1 ≤ (run1 false [Mv1.fire, Mv1.terrResume]).errors) :=
  ⟨claim_C5.1 botWithPending 7 9 "hello" ⟨[1, 2], 9, true⟩
      (by simp [botWithPending]) rfl (by simp [botWithPending]) rfl,
   claim_C5.2.1 botWithPending 7 ⟨[1, 2], 9, true⟩ (by simp [botWithPending]),
   claim_C5.2.2 [Mv1.fire, Mv1.terrResume] (by constructor <;> decide)⟩

/-- C6: in transparency-input mode, any parsed numeric value is clamped
to 0-100 and accepted (confirmation reply, never a rejection), with
the stored alpha computed by `int(255 * (val / 100))`; in particular a
requested 150 percent stores the maximum representable alpha 255 and a
requested -10 percent stores 0. -/
theorem claim_C6 (compose : Compose) (st : BotState) (user_id chat_id : ℕ)
    (h : st.USER_STATE user_id = some "awaiting_transparency") :
    ((handle_text compose st user_id chat_id "150").1.USER_SETTINGS user_id
       = some { (st.USER_SETTINGS user_id).getD DEFAULT_SETTINGS with alpha := some 255 })
    ∧ ((handle_text compose st user_id chat_id "-10").1.USER_SETTINGS user_id
       = some { (st.USER_SETTINGS user_id).getD DEFAULT_SETTINGS with alpha := some 0 })
    ∧ (∀ (raw : String) (v : ℤ),
        startsWithSlash (pyStrip raw) = false → pyParseInt (pyStrip raw) = some v →
        (handle_text compose st user_id chat_id raw).1.USER_SETTINGS user_id
          = some { (st.USER_SETTINGS user_id).getD DEFAULT_SETTINGS with
                     alpha := some (alpha_from_percent (max 0 (min 100 v))) }
        ∧ (handle_text compose st user_id chat_id raw).2
          = [Action.reply_text chat_id
              ("✅ Transparency " ++ toString (max 0 (min 100 v)) ++ "% सेट हो गई.")]) := by
  have h3 : ∀ (raw : String) (v : ℤ),
      startsWithSlash (pyStrip raw) = false → pyParseInt (pyStrip raw) = some v →
      (handle_text compose st user_id chat_id raw).1.USER_SETTINGS user_id
        = some { (st.USER_SETTINGS user_id).getD DEFAULT_SETTINGS with
                   alpha := some (alpha_from_percent (max 0 (min 100 v))) }
      ∧ (handle_text compose st user_id chat_id raw).2
        = [Action.reply_text chat_id
            ("✅ Transparency " ++ toString (max 0 (min 100 v)) ++ "% सेट हो गई.")] := by
    intro raw v h1 h2
    rcases hs : st.USER_SETTINGS user_id with _ | r <;>
      simp [handle_text, get_user_settings, h, h1, h2, hs, mapInsert, mapErase]
  refine ⟨?_, ?_, h3⟩
  · have := (h3 "150" 150 rfl rfl).1
    rwa [show (max 0 (min 100 (150 : ℤ))) = 100 by norm_num,
         show alpha_from_percent 100 = 255 by decide] at this
  · have := (h3 "-10" (-10) rfl rfl).1
    rwa [show (max 0 (min 100 (-10 : ℤ))) = 0 by norm_num,
         show alpha_from_percent 0 = 0 by decide] at this

/-- C6 witness: on a concrete state with the flag set, sending "150"
stores alpha 255 and sending "-10" stores alpha 0. -/
theorem claim_C6_witness :
    ((handle_text (fun _ _ _ => none) botAwait 7 9 "150").1.USER_SETTINGS 7
       = some { (botAwait.USER_SETTINGS 7).getD DEFAULT_SETTINGS with alpha := some 255 })
    ∧ ((handle_text (fun _ _ _ => none) botAwait 7 9 "-10").1.USER_SETTINGS 7
       = some { (botAwait.USER_SETTINGS 7).getD DEFAULT_SETTINGS with alpha := some 0 }) :=
  ⟨(claim_C6 (fun _ _ _ => none) botAwait 7 9 (by simp [botAwait])).1,
   (claim_C6 (fun _ _ _ => none) botAwait 7 9 (by simp [botAwait])).2.1⟩

/-- C7: every single-origin placement the layout computes is at least
the 20-pixel margin on both axes; in particular text wider than the
canvas at bottom_right clamps the x coordinate to exactly the margin,
never a negative value. -/
theorem claim_C7 :
    (∀ (W H tw th rw rh x y : ℤ) (p : String),
        wmPlacement W H tw th rw rh p = .at x y → wmMargin ≤ x ∧ wmMargin ≤ y)
    ∧ (∀ (W H tw th rw rh : ℤ), W < tw →
        wmPlacement W H tw th rw rh "bottom_right"
          = .at wmMargin (max wmMargin (H - th - wmMargin))) := by
  constructor
  · intro W H tw th rw rh x y p hp
    unfold wmPlacement at hp
    split_ifs at hp <;> simp only [Placement.at.injEq] at hp <;>
      try (obtain ⟨rfl, rfl⟩ := hp)
    all_goals constructor <;> first
      | exact le_refl _
      | exact le_max_left _ _
  · intro W H tw th rw rh hW
    unfold wmPlacement
    rw [if_neg (by decide), if_neg (by decide), if_neg (by decide), if_neg (by decide),
        if_pos rfl]
    have hx : W - tw - wmMargin ≤ wmMargin := by unfold wmMargin; omega
    rw [max_eq_left hx]

/-- C7 witness: a 5x5 canvas with 100-wide text at bottom_right places
the text at exactly the margin on both axes. -/
theorem claim_C7_witness :
    (wmMargin ≤ (20 : ℤ) ∧ wmMargin ≤ (20 : ℤ))
    ∧ wmPlacement 5 5 100 10 0 0 "bottom_right"
        = .at wmMargin (max wmMargin (5 - 10 - wmMargin)) :=
  ⟨claim_C7.1 5 5 100 10 0 0 20 20 "bottom_right" (by decide),
   claim_C7.2 5 5 100 10 0 0 (by decide)⟩

/-- C8: the spaced transform inserts a single space between every code
point of the input (characterised by `List.intersperse`), with
`transform "AB" "spaced" = "A B"` and the empty input mapped to the
empty output. -/
theorem claim_C8 :
    transform "AB" "spaced" = "A B" ∧ transform "" "spaced" = ""
    ∧ ∀ s : String, (transform s "spaced").toList = List.intersperse ' ' s.toList :=
  ⟨rfl, rfl, fun _ => rfl⟩

/-- C9: a timeout task cancelled while sleeping returns immediately
with no side effects: it composes nothing, delivers nothing, sends no
message, and leaves the pending-session map, the settings map and the
input-state map unchanged. -/
theorem claim_C9 (compose : Compose) (st : BotState) (user_id : ℕ) :
    default_watermark_task true compose st user_id = (st, [])
    ∧ (default_watermark_task true compose st user_id).1.PENDING = st.PENDING
    ∧ (default_watermark_task true compose st user_id).1.USER_SETTINGS = st.USER_SETTINGS
    ∧ (default_watermark_task true compose st user_id).1.USER_STATE = st.USER_STATE
    ∧ (default_watermark_task true compose st user_id).2 = [] :=
  ⟨rfl, rfl, rfl, rfl, rfl⟩

/-- C10: a command (text starting with "/") received while a session is
pending and no numeric-input flag is set leaves the state unchanged
and performs no action — the session is not consumed and its timer is
not cancelled — so the timeout, firing on the untouched state, pops
the session and delivers the default watermark. -/
theorem claim_C10 :
    (∀ (compose : Compose) (st : BotState) (user_id chat_id : ℕ) (raw : String)
        (p : PendingRec),
        st.USER_STATE user_id ≠ some "awaiting_transparency" →
        startsWithSlash (pyStrip raw) = true →
        st.PENDING user_id = some p →
        handle_text compose st user_id chat_id raw = (st, []))
    ∧ (∀ (compose : Compose) (st : BotState) (user_id : ℕ) (p : PendingRec) (wm : List ℕ),
        st.PENDING user_id = some p →
        compose p.image_bytes DEFAULT_WATERMARK
            (get_user_settings st.USER_SETTINGS user_id).2 = some wm →
        default_watermark_task false compose st user_id
          = ({ st with USER_SETTINGS := (get_user_settings st.USER_SETTINGS user_id).1,
                       PENDING := mapErase st.PENDING user_id },
             [Action.send_photo p.chat_id wm
                ("⌛ Time khatam.\nDefault watermark laga diya: " ++ DEFAULT_WATERMARK)])) := by
  constructor
  · intro compose st user_id chat_id raw p h1 h2 h3
    simp [handle_text, h1, h2]
  · intro compose st user_id p wm h1 h2
    simp [default_watermark_task, h1, h2]

/-- C10 witness: the command "/start" leaves a concrete state with a
pending session untouched, and the timeout on that same state delivers
the default watermark. -/
theorem claim_C10_witness :
    handle_text (fun _ _ _ => some [9]) botWithPending 7 9 "/start" = (botWithPending, [])
    ∧ default_watermark_task false (fun _ _ _ => some [9]) botWithPending 7
      = ({ botWithPending with
             USER_SETTINGS := (get_user_settings botWithPending.USER_SETTINGS 7).1,
             PENDING := mapErase botWithPending.PENDING 7 },
         [Action.send_photo 9 [9]
            ("⌛ Time khatam.\nDefault watermark laga diya: " ++ DEFAULT_WATERMARK)]) :=
  ⟨claim_C10.1 (fun _ _ _ => some [9]) botWithPending 7 9 "/start" ⟨[1, 2], 9, true⟩
      (by simp [botWithPending]) rfl (by simp [botWithPending]),
   claim_C10.2 (fun _ _ _ => some [9]) botWithPending 7 ⟨[1, 2], 9, true⟩ [9]
      (by simp [botWithPending]) rfl⟩

end ImageBot
